import Mathlib

/-!
# Verification of the certificate-existence checker (`src/anu.py`)

A shallow embedding of the core of `anu.py`:

* `email_to_filename` — the identity-to-filename transformation (line 16-26);
* `pdf_url` — the address template built at line 34;
* `check_loop` / `check_pdf_exists` — the bounded-retry HEAD probe (lines 28-72),
  with the transport abstracted as a map from attempt number to observed event;
* `valid_email` / `process_results` / `summarize` — the per-email loop and the
  summary fold of `process_event` (lines 136-169).

The probe returns, besides the `(exists, url, message)` triple of the source,
the number of transport requests that were issued and the list of sleep
durations that were performed, so that retry behaviour is observable.
-/

/-- One transport-level event observed by a single `requests.head` attempt:
either a completed response (status code plus optional `content-type` header
value), or one of the three exception classes caught by `check_pdf_exists`
(`requests.exceptions.Timeout`, `requests.exceptions.ConnectionError`,
`requests.exceptions.RequestException`). -/
inductive TransportEvent where
  | response (status : Nat) (contentType : Option String)
  | timeout
  | connectionError
  | requestError (msg : String)
deriving DecidableEq, Repr

/-- Whether an event is a transport-level exception (any of the three caught
exception classes) rather than a completed response. -/
def TransportEvent.isException : TransportEvent → Bool
  | .response _ _ => false
  | .timeout => true
  | .connectionError => true
  | .requestError _ => true

/-- `email_to_filename` (src/anu.py lines 16-26): replace every `@` with `_`,
change nothing else (no lowercasing, dots kept).  Python's
`email.replace('@', '_')` with a one-character needle acts independently on
each character. -/
def email_to_filename (email : String) : String :=
  ⟨email.data.map (fun c => if c = '@' then '_' else c)⟩

/-- The fixed host-and-path part of the address template (src/anu.py line 34). -/
def base_url : String :=
  "https://bbpvpbekasi.kemnaker.go.id/bulanvokasi/sertifikatbv"

/-- The URL constructed at src/anu.py line 34:
`f"{base}/{event_code}/{email_filename}.pdf"`. -/
def pdf_url (email event_code : String) : String :=
  base_url ++ "/" ++ event_code ++ "/" ++ email_to_filename email ++ ".pdf"

/-- Python's `str.lower()` as applied by the source to a `content-type`
header value (ASCII case mapping), expressed on the character list so that it
evaluates by reduction. -/
def py_lower (s : String) : String :=
  ⟨s.data.map Char.toLower⟩

/-- Python's `needle in hay` on strings (substring containment), expressed on
the character lists. -/
def substrOf : List Char → List Char → Bool
  | needle, [] => needle.isEmpty
  | needle, c :: rest => needle.isPrefixOf (c :: rest) || substrOf needle rest

/-- `needle in hay` for Lean strings, via `substrOf` on the underlying data. -/
def pyStrContains (needle hay : String) : Bool :=
  substrOf needle.data hay.data

/-- The result of one probe: the `(exists, url, message)` triple returned by
`check_pdf_exists`, together with the observable effects of the run — how many
transport requests were issued and which sleep durations were performed. -/
structure ProbeRun where
  found : Bool
  url : String
  message : String
  requests : Nat
  sleeps : List Nat
deriving DecidableEq, Repr

/-- The retry loop of `check_pdf_exists` (src/anu.py lines 36-72):
`for attempt in range(1, max_retries + 1)`.  `attempt` is the Python loop
variable; `remaining` counts the loop iterations still to run (the top-level
entry starts with `attempt = 1` and `remaining = max_retries`).  When the loop
is exhausted without returning, the trailing fallback of line 72 yields
`"Unknown error"`.  On a completed response: status `200` with a content type
containing `"pdf"` (after lowercasing, missing header read as `""`) returns
the `"PDF exists"` triple; status `200` otherwise returns
`"URL exists but not a PDF"`; any other status returns `"HTTP Status: ..."`.
On an exception: if `attempt < max_retries`, sleep `retry_delay` and retry,
else return the per-class exhaustion message. -/
def check_loop (net : Nat → TransportEvent) (url : String)
    (max_retries retry_delay : Nat) : Nat → Nat → ProbeRun
  | _attempt, 0 =>
    { found := false, url := url, message := "Unknown error",
      requests := 0, sleeps := [] }
  | attempt, remaining + 1 =>
    match net attempt with
    | .response status contentType =>
      if status = 200 then
        let content_type := py_lower (contentType.getD "")
        if pyStrContains "pdf" content_type then
          { found := true, url := url, message := "PDF exists",
            requests := 1, sleeps := [] }
        else
          { found := false, url := url, message := "URL exists but not a PDF",
            requests := 1, sleeps := [] }
      else
        { found := false, url := url,
          message := "HTTP Status: " ++ toString status,
          requests := 1, sleeps := [] }
    | .timeout =>
      if attempt < max_retries then
        let rest := check_loop net url max_retries retry_delay (attempt + 1) remaining
        { rest with requests := rest.requests + 1, sleeps := retry_delay :: rest.sleeps }
      else
        { found := false, url := url,
          message := "Connection timeout (failed after " ++ toString max_retries
            ++ " attempts)",
          requests := 1, sleeps := [] }
    | .connectionError =>
      if attempt < max_retries then
        let rest := check_loop net url max_retries retry_delay (attempt + 1) remaining
        { rest with requests := rest.requests + 1, sleeps := retry_delay :: rest.sleeps }
      else
        { found := false, url := url,
          message := "Connection error (failed after " ++ toString max_retries
            ++ " attempts)",
          requests := 1, sleeps := [] }
    | .requestError e =>
      if attempt < max_retries then
        let rest := check_loop net url max_retries retry_delay (attempt + 1) remaining
        { rest with requests := rest.requests + 1, sleeps := retry_delay :: rest.sleeps }
      else
        { found := false, url := url,
          message := "Request error: " ++ e ++ " (failed after "
            ++ toString max_retries ++ " attempts)",
          requests := 1, sleeps := [] }

/-- Default value of the `max_retries` parameter of `check_pdf_exists`
(src/anu.py line 28: `max_retries=5`). -/
def default_max_retries : Nat := 5

/-- Default value of the `retry_delay` parameter of `check_pdf_exists`
(src/anu.py line 28: `retry_delay=5`). -/
def default_retry_delay : Nat := 5

/-- `check_pdf_exists` (src/anu.py lines 28-72): build the URL from the email
and the event code, then run the retry loop starting at attempt 1 with
`max_retries` iterations available. -/
def check_pdf_exists (net : Nat → TransportEvent) (email event_code : String)
    (max_retries retry_delay : Nat) : ProbeRun :=
  check_loop net (pdf_url email event_code) max_retries retry_delay 1 max_retries

/-- The skip test of the per-email loop (src/anu.py line 138):
`if not email or '@' not in email: continue`.  An entry is kept iff it is
non-empty and contains a literal `@`. -/
def valid_email (email : String) : Bool :=
  !(email == "") && decide ('@' ∈ email.data)

/-- The per-email loop of `process_event` (src/anu.py lines 136-163): skip
entries failing `valid_email`, probe every kept entry with
`check_pdf_exists(email, event_code)` — that call uses the declared defaults —
and append `(email, outcome)` in input order.  The transport is a map from
email to its per-attempt event stream. -/
def process_results (net : String → Nat → TransportEvent) (event_code : String) :
    List String → List (String × ProbeRun)
  | [] => []
  | email :: rest =>
    if valid_email email then
      (email, check_pdf_exists (net email) email event_code
          default_max_retries default_retry_delay)
        :: process_results net event_code rest
    else
      process_results net event_code rest

/-- The summary fold of `process_event` (src/anu.py lines 166-169):
`total = len(results)`, `success = sum(1 for r in results if r[1])`,
`failed = total - success`; returned as `(total, success, failed)`. -/
def summarize (results : List (String × ProbeRun)) : Nat × Nat × Nat :=
  (results.length,
   results.countP (fun r => r.2.found),
   results.length - results.countP (fun r => r.2.found))

/-- The characters removed by Python's `str.strip()` (used in the spec's
notion of "empty after trimming"). -/
def isPySpace (c : Char) : Bool :=
  c == ' ' || c == '\t' || c == '\n' || c == '\r' || c == '\x0b' || c == '\x0c'

/-- Python's `str.strip()`: drop leading and trailing whitespace. -/
def py_strip (s : String) : String :=
  ⟨((s.data.dropWhile isPySpace).reverse.dropWhile isPySpace).reverse⟩

/-- The exhaustion diagnostic returned by `check_pdf_exists` when the final
attempt fails with the given exception class (src/anu.py lines 55, 62, 69):
it names the failure class and the attempt count.  (The `response` case is
never an exception; it is mapped to the unreachable-fallback text.) -/
def exhaustedMessage (ev : TransportEvent) (n : Nat) : String :=
  match ev with
  | .timeout =>
    "Connection timeout (failed after " ++ toString n ++ " attempts)"
  | .connectionError =>
    "Connection error (failed after " ++ toString n ++ " attempts)"
  | .requestError e =>
    "Request error: " ++ e ++ " (failed after " ++ toString n ++ " attempts)"
  | .response _ _ => "Unknown error"

/-- Classification of every value the retry loop can return from inside an
iteration (i.e. everything except the trailing fallback): the four
spec-level `ProbeOutcome` states.  `found` is true exactly in the `Confirmed`
case. -/
def IsLoopOutcome (mr : Nat) (found : Bool) (message : String) : Prop :=
  (found = true ∧ message = "PDF exists") ∨
  (found = false ∧ message = "URL exists but not a PDF") ∨
  (found = false ∧ ∃ status : Nat, status ≠ 200 ∧
    message = "HTTP Status: " ++ toString status) ∨
  (found = false ∧ ∃ ev : TransportEvent, ev.isException = true ∧
    message = exhaustedMessage ev mr)

/-- Strings starting with different characters are different. -/
theorem starts_ne {c d : Char} {s q : String} (hs : ∃ t, s.data = c :: t)
    (hq : ∃ t, q.data = d :: t) (hcd : c ≠ d) : s ≠ q := by
  obtain ⟨ts, hs⟩ := hs
  obtain ⟨tq, hq⟩ := hq
  intro he
  rw [he, hq] at hs
  injection hs with h1 _
  exact hcd h1.symm

/-- Appending on the right keeps the first character. -/
theorem starts_append {c : Char} {s : String} (hs : ∃ t, s.data = c :: t)
    (x : String) : ∃ t, (s ++ x).data = c :: t := by
  obtain ⟨t, ht⟩ := hs
  exact ⟨t ++ x.data, by rw [String.data_append, ht, List.cons_append]⟩

theorem msg_pdf_starts : ∃ t, ("PDF exists" : String).data = 'P' :: t :=
  ⟨"DF exists".data, by decide⟩

theorem msg_unknown_starts : ∃ t, ("Unknown error" : String).data = 'U' :: t :=
  ⟨"nknown error".data, by decide⟩

theorem msg_http_starts (x : String) : ∃ t, ("HTTP Status: " ++ x).data = 'H' :: t :=
  starts_append ⟨"TTP Status: ".data, by decide⟩ x

theorem msg_timeout_starts (n : Nat) :
    ∃ t, ("Connection timeout (failed after " ++ toString n ++ " attempts)").data
      = 'C' :: t :=
  starts_append (starts_append ⟨"onnection timeout (failed after ".data, by decide⟩ _) _

theorem msg_connerr_starts (n : Nat) :
    ∃ t, ("Connection error (failed after " ++ toString n ++ " attempts)").data
      = 'C' :: t :=
  starts_append (starts_append ⟨"onnection error (failed after ".data, by decide⟩ _) _

theorem msg_reqerr_starts (e : String) (n : Nat) :
    ∃ t, ("Request error: " ++ e ++ " (failed after " ++ toString n
        ++ " attempts)").data = 'R' :: t :=
  starts_append (starts_append (starts_append (starts_append
    (⟨"equest error: ".data, by decide⟩ :
      ∃ t, ("Request error: " : String).data = 'R' :: t) _) _) _) _

/-- Every exhaustion diagnostic starts with `C` or `R`. -/
theorem exhausted_starts (ev : TransportEvent) (hev : ev.isException = true) (n : Nat) :
    ∃ c t, (exhaustedMessage ev n).data = c :: t ∧ (c = 'C' ∨ c = 'R') := by
  cases ev with
  | response s ct => simp [TransportEvent.isException] at hev
  | timeout =>
    obtain ⟨t, ht⟩ := msg_timeout_starts n
    exact ⟨'C', t, ht, Or.inl rfl⟩
  | connectionError =>
    obtain ⟨t, ht⟩ := msg_connerr_starts n
    exact ⟨'C', t, ht, Or.inl rfl⟩
  | requestError e =>
    obtain ⟨t, ht⟩ := msg_reqerr_starts e n
    exact ⟨'R', t, ht, Or.inr rfl⟩

/-- In every in-loop outcome, `found` is true exactly for the `Confirmed`
diagnostic `"PDF exists"`. -/
theorem loopOutcome_found_iff {mr : Nat} {found : Bool} {message : String}
    (h : IsLoopOutcome mr found message) : found = true ↔ message = "PDF exists" := by
  rcases h with ⟨hf, hm⟩ | ⟨hf, hm⟩ | ⟨hf, s, hs, hm⟩ | ⟨hf, ev, hev, hm⟩
  · exact ⟨fun _ => hm, fun _ => hf⟩
  · rw [hf, hm]; decide
  · rw [hf, hm]
    simp only [Bool.false_eq_true, false_iff]
    exact starts_ne (msg_http_starts _) msg_pdf_starts (by decide)
  · rw [hf, hm]
    simp only [Bool.false_eq_true, false_iff]
    obtain ⟨c, t, ht, hc⟩ := exhausted_starts ev hev mr
    exact starts_ne ⟨t, ht⟩ msg_pdf_starts (by rcases hc with rfl | rfl <;> decide)

/-- No in-loop outcome carries the fallback diagnostic `"Unknown error"`. -/
theorem loopOutcome_ne_unknown {mr : Nat} {found : Bool} {message : String}
    (h : IsLoopOutcome mr found message) : message ≠ "Unknown error" := by
  rcases h with ⟨hf, hm⟩ | ⟨hf, hm⟩ | ⟨hf, s, hs, hm⟩ | ⟨hf, ev, hev, hm⟩
  · rw [hm]; decide
  · rw [hm]; decide
  · rw [hm]
    exact starts_ne (msg_http_starts _) msg_unknown_starts (by decide)
  · rw [hm]
    obtain ⟨c, t, ht, hc⟩ := exhausted_starts ev hev mr
    exact starts_ne ⟨t, ht⟩ msg_unknown_starts (by rcases hc with rfl | rfl <;> decide)

/-- As long as an iteration of the loop is still available
(`attempt ≤ max_retries` and at least `max_retries + 1 - attempt` iterations
remain), the loop returns from inside an iteration: its result is one of the
four outcome classes, carries the probed URL, and at least one transport
request was issued. -/
theorem check_loop_spec (net : Nat → TransportEvent) (url : String) (mr rd : Nat) :
    ∀ remaining attempt, mr + 1 ≤ attempt + remaining → attempt ≤ mr →
      IsLoopOutcome mr (check_loop net url mr rd attempt remaining).found
          (check_loop net url mr rd attempt remaining).message ∧
      (check_loop net url mr rd attempt remaining).url = url ∧
      1 ≤ (check_loop net url mr rd attempt remaining).requests := by
  intro remaining
  induction remaining with
  | zero => intro attempt h1 h2; omega
  | succ r ih =>
    intro attempt h1 h2
    cases hnet : net attempt with
    | response status ct =>
      by_cases hst : status = 200
      · by_cases hpdf : pyStrContains "pdf" (py_lower (ct.getD "")) = true
        · have hres : check_loop net url mr rd attempt (r + 1) =
              { found := true, url := url, message := "PDF exists",
                requests := 1, sleeps := [] } := by
            simp [check_loop, hnet, hst, hpdf]
          rw [hres]
          exact ⟨Or.inl ⟨rfl, rfl⟩, rfl, le_refl 1⟩
        · rw [Bool.not_eq_true] at hpdf
          have hres : check_loop net url mr rd attempt (r + 1) =
              { found := false, url := url, message := "URL exists but not a PDF",
                requests := 1, sleeps := [] } := by
            simp [check_loop, hnet, hst, hpdf]
          rw [hres]
          exact ⟨Or.inr (Or.inl ⟨rfl, rfl⟩), rfl, le_refl 1⟩
      · have hres : check_loop net url mr rd attempt (r + 1) =
            { found := false, url := url,
              message := "HTTP Status: " ++ toString status,
              requests := 1, sleeps := [] } := by
          simp [check_loop, hnet, hst]
        rw [hres]
        exact ⟨Or.inr (Or.inr (Or.inl ⟨rfl, status, hst, rfl⟩)), rfl, le_refl 1⟩
    | timeout =>
      by_cases hlt : attempt < mr
      · have ihres := ih (attempt + 1) (by omega) (by omega)
        have hres : check_loop net url mr rd attempt (r + 1) =
            { check_loop net url mr rd (attempt + 1) r with
              requests := (check_loop net url mr rd (attempt + 1) r).requests + 1,
              sleeps := rd :: (check_loop net url mr rd (attempt + 1) r).sleeps } := by
          simp [check_loop, hnet, hlt]
        rw [hres]
        exact ⟨ihres.1, ihres.2.1, Nat.succ_le_succ (Nat.zero_le _)⟩
      · have hres : check_loop net url mr rd attempt (r + 1) =
            { found := false, url := url,
              message := "Connection timeout (failed after " ++ toString mr
                ++ " attempts)",
              requests := 1, sleeps := [] } := by
          simp [check_loop, hnet, hlt]
        rw [hres]
        exact ⟨Or.inr (Or.inr (Or.inr ⟨rfl, .timeout, rfl, rfl⟩)), rfl, le_refl 1⟩
    | connectionError =>
      by_cases hlt : attempt < mr
      · have ihres := ih (attempt + 1) (by omega) (by omega)
        have hres : check_loop net url mr rd attempt (r + 1) =
            { check_loop net url mr rd (attempt + 1) r with
              requests := (check_loop net url mr rd (attempt + 1) r).requests + 1,
              sleeps := rd :: (check_loop net url mr rd (attempt + 1) r).sleeps } := by
          simp [check_loop, hnet, hlt]
        rw [hres]
        exact ⟨ihres.1, ihres.2.1, Nat.succ_le_succ (Nat.zero_le _)⟩
      · have hres : check_loop net url mr rd attempt (r + 1) =
            { found := false, url := url,
              message := "Connection error (failed after " ++ toString mr
                ++ " attempts)",
              requests := 1, sleeps := [] } := by
          simp [check_loop, hnet, hlt]
        rw [hres]
        exact ⟨Or.inr (Or.inr (Or.inr ⟨rfl, .connectionError, rfl, rfl⟩)), rfl,
          le_refl 1⟩
    | requestError e =>
      by_cases hlt : attempt < mr
      · have ihres := ih (attempt + 1) (by omega) (by omega)
        have hres : check_loop net url mr rd attempt (r + 1) =
            { check_loop net url mr rd (attempt + 1) r with
              requests := (check_loop net url mr rd (attempt + 1) r).requests + 1,
              sleeps := rd :: (check_loop net url mr rd (attempt + 1) r).sleeps } := by
          simp [check_loop, hnet, hlt]
        rw [hres]
        exact ⟨ihres.1, ihres.2.1, Nat.succ_le_succ (Nat.zero_le _)⟩
      · have hres : check_loop net url mr rd attempt (r + 1) =
            { found := false, url := url,
              message := "Request error: " ++ e ++ " (failed after "
                ++ toString mr ++ " attempts)",
              requests := 1, sleeps := [] } := by
          simp [check_loop, hnet, hlt]
        rw [hres]
        exact ⟨Or.inr (Or.inr (Or.inr ⟨rfl, .requestError e, rfl, rfl⟩)), rfl,
          le_refl 1⟩

/-- Whenever at least one attempt is allowed, `check_pdf_exists` returns from
inside the loop: its result is one of the four outcome classes, carries the
derived URL, and at least one request was issued. -/
theorem check_pdf_exists_spec (net : Nat → TransportEvent) (email event_code : String)
    (mr rd : Nat) (h : 1 ≤ mr) :
    IsLoopOutcome mr (check_pdf_exists net email event_code mr rd).found
        (check_pdf_exists net email event_code mr rd).message ∧
    (check_pdf_exists net email event_code mr rd).url = pdf_url email event_code ∧
    1 ≤ (check_pdf_exists net email event_code mr rd).requests :=
  check_loop_spec net (pdf_url email event_code) mr rd mr 1 (by omega) h

/-- On every probe, the boolean `found` is true exactly when the diagnostic is
the `Confirmed` one. -/
theorem check_found_iff (net : Nat → TransportEvent) (email event_code : String)
    (mr rd : Nat) :
    (check_pdf_exists net email event_code mr rd).found = true ↔
      (check_pdf_exists net email event_code mr rd).message = "PDF exists" := by
  rcases Nat.eq_zero_or_pos mr with h0 | h1
  · subst h0
    simp only [check_pdf_exists, check_loop]
    decide
  · exact loopOutcome_found_iff (check_pdf_exists_spec net email event_code mr rd h1).1

/-- When the first attempt completes with a response, the probe returns that
attempt's classification at once: one request, no sleeps. -/
theorem check_first_response (net : Nat → TransportEvent) (email event_code : String)
    (mr rd : Nat) (h : 1 ≤ mr) (status : Nat) (ct : Option String)
    (hnet : net 1 = TransportEvent.response status ct) :
    check_pdf_exists net email event_code mr rd =
      if status = 200 then
        if pyStrContains "pdf" (py_lower (ct.getD "")) then
          { found := true, url := pdf_url email event_code, message := "PDF exists",
            requests := 1, sleeps := [] }
        else
          { found := false, url := pdf_url email event_code,
            message := "URL exists but not a PDF", requests := 1, sleeps := [] }
      else
        { found := false, url := pdf_url email event_code,
          message := "HTTP Status: " ++ toString status,
          requests := 1, sleeps := [] } := by
  obtain ⟨m, rfl⟩ : ∃ m, mr = m + 1 := ⟨mr - 1, by omega⟩
  simp [check_pdf_exists, check_loop, hnet]

/-- One retrying step of the loop: a transport exception with attempts still
allowed recurses, adding one request and one sleep of `rd`. -/
theorem check_loop_retry_step (net : Nat → TransportEvent) (url : String)
    (mr rd attempt remaining : Nat)
    (hexc : (net attempt).isException = true) (hlt : attempt < mr) :
    check_loop net url mr rd attempt (remaining + 1) =
      { check_loop net url mr rd (attempt + 1) remaining with
        requests := (check_loop net url mr rd (attempt + 1) remaining).requests + 1,
        sleeps := rd :: (check_loop net url mr rd (attempt + 1) remaining).sleeps } := by
  cases hnet : net attempt with
  | response status ct =>
    rw [hnet] at hexc
    simp [TransportEvent.isException] at hexc
  | timeout => simp only [check_loop, hnet, if_pos hlt]
  | connectionError => simp only [check_loop, hnet, if_pos hlt]
  | requestError e => simp only [check_loop, hnet, if_pos hlt]

/-- If every remaining attempt fails with a transport exception, the loop uses
them all up: one request per iteration, one sleep between consecutive
iterations, and the diagnostic of the exception class seen on the final
attempt. -/
theorem check_loop_all_fail (net : Nat → TransportEvent) (url : String) (mr rd : Nat) :
    ∀ remaining attempt, attempt + remaining = mr + 1 → 1 ≤ remaining →
      (∀ a, attempt ≤ a → a ≤ mr → (net a).isException = true) →
      check_loop net url mr rd attempt remaining =
        { found := false, url := url, message := exhaustedMessage (net mr) mr,
          requests := remaining, sleeps := List.replicate (remaining - 1) rd } := by
  intro remaining
  induction remaining with
  | zero => intro attempt h1 h2 _; omega
  | succ r ih =>
    intro attempt h1 _ hfail
    have hale : attempt ≤ mr := by omega
    have hexc := hfail attempt le_rfl hale
    by_cases hlt : attempt < mr
    · obtain ⟨s, rfl⟩ : ∃ s, r = s + 1 := ⟨r - 1, by omega⟩
      have ihres := ih (attempt + 1) (by omega) (by omega)
        (fun a ha hb => hfail a (by omega) hb)
      rw [check_loop_retry_step net url mr rd attempt (s + 1) hexc hlt, ihres]
      simp [List.replicate_succ]
    · have ha : attempt = mr := by omega
      have hr0 : r = 0 := by omega
      subst ha
      subst hr0
      cases hnet : net attempt with
      | response status ct =>
        rw [hnet] at hexc
        simp [TransportEvent.isException] at hexc
      | timeout => simp [check_loop, hnet, hlt, exhaustedMessage]
      | connectionError => simp [check_loop, hnet, hlt, exhaustedMessage]
      | requestError e => simp [check_loop, hnet, hlt, exhaustedMessage]

/-- A first-attempt 200 response whose content type passes the PDF test makes
the probe return the Confirmed triple at once. -/
theorem check_200_pdf (net : Nat → TransportEvent) (email event_code : String)
    (mr rd : Nat) (hmr : 1 ≤ mr) (ct : Option String)
    (hnet : net 1 = TransportEvent.response 200 ct)
    (hpdf : pyStrContains "pdf" (py_lower (ct.getD "")) = true) :
    check_pdf_exists net email event_code mr rd =
      { found := true, url := pdf_url email event_code, message := "PDF exists",
        requests := 1, sleeps := [] } := by
  obtain ⟨m, rfl⟩ : ∃ m, mr = m + 1 := ⟨mr - 1, by omega⟩
  simp [check_pdf_exists, check_loop, hnet, hpdf]

/-- A first-attempt 200 response whose content type fails the PDF test makes
the probe return the WrongType triple at once. -/
theorem check_200_nonpdf (net : Nat → TransportEvent) (email event_code : String)
    (mr rd : Nat) (hmr : 1 ≤ mr) (ct : Option String)
    (hnet : net 1 = TransportEvent.response 200 ct)
    (hpdf : pyStrContains "pdf" (py_lower (ct.getD "")) = false) :
    check_pdf_exists net email event_code mr rd =
      { found := false, url := pdf_url email event_code,
        message := "URL exists but not a PDF", requests := 1, sleeps := [] } := by
  obtain ⟨m, rfl⟩ : ∃ m, mr = m + 1 := ⟨mr - 1, by omega⟩
  simp [check_pdf_exists, check_loop, hnet, hpdf]

/-- A first-attempt response with any status other than 200 makes the probe
report that status at once. -/
theorem check_non200 (net : Nat → TransportEvent) (email event_code : String)
    (mr rd : Nat) (hmr : 1 ≤ mr) (status : Nat) (ct : Option String)
    (hnet : net 1 = TransportEvent.response status ct) (hst : status ≠ 200) :
    check_pdf_exists net email event_code mr rd =
      { found := false, url := pdf_url email event_code,
        message := "HTTP Status: " ++ toString status,
        requests := 1, sleeps := [] } := by
  obtain ⟨m, rfl⟩ : ∃ m, mr = m + 1 := ⟨mr - 1, by omega⟩
  simp [check_pdf_exists, check_loop, hnet, hst]

/-- `substrOf` decides contiguous-substring containment. -/
theorem substrOf_iff (needle : List Char) :
    ∀ hay : List Char, substrOf needle hay = true ↔ needle <:+: hay := by
  intro hay
  induction hay with
  | nil => simp [substrOf, List.isEmpty_iff, List.infix_nil]
  | cons c t ih =>
    simp [substrOf, Bool.or_eq_true, List.isPrefixOf_iff_prefix, ih,
      List.infix_cons_iff]

/-- `process_results` keeps exactly the valid entries, in order, each paired
with its probe under the default retry policy. -/
theorem process_results_eq (net : String → Nat → TransportEvent)
    (event_code : String) (emails : List String) :
    process_results net event_code emails =
      (emails.filter valid_email).map
        (fun e => (e, check_pdf_exists (net e) e event_code
            default_max_retries default_retry_delay)) := by
  induction emails with
  | nil => rfl
  | cons email rest ih =>
    by_cases h : valid_email email
    · simp [process_results, h, ih]
    · simp [process_results, h, ih]

/-- The transport of an invalid entry is never consulted: two transports
agreeing on every valid entry give identical record sequences. -/
theorem process_results_net_congr (net net' : String → Nat → TransportEvent)
    (event_code : String) (emails : List String)
    (h : ∀ e, valid_email e = true → net e = net' e) :
    process_results net event_code emails =
      process_results net' event_code emails := by
  induction emails with
  | nil => rfl
  | cons email rest ih =>
    by_cases hv : valid_email email
    · simp [process_results, hv, ih, h email hv]
    · simp [process_results, hv, ih]

/-- A string that strips to empty is whitespace-only, so it contains no `@`. -/
theorem py_strip_empty_no_at (e : String) (h : py_strip e = "") : '@' ∉ e.data := by
  intro hmem
  have hdata : ((e.data.dropWhile isPySpace).reverse.dropWhile isPySpace).reverse
      = [] := congrArg String.data h
  rw [List.reverse_eq_nil_iff, List.dropWhile_eq_nil_iff] at hdata
  have hall : ∀ x ∈ e.data.dropWhile isPySpace, isPySpace x := fun x hx =>
    hdata x (List.mem_reverse.mpr hx)
  have hsplit := List.takeWhile_append_dropWhile isPySpace e.data
  rw [← hsplit] at hmem
  rcases List.mem_append.mp hmem with hTake | hDrop
  · have := List.mem_takeWhile_imp hTake
    simp [isPySpace] at this
  · have := hall '@' hDrop
    simp [isPySpace] at this

/-- String append is associative. -/
theorem str_append_assoc (a b c : String) : a ++ b ++ c = a ++ (b ++ c) := by
  apply String.ext
  simp [String.data_append]

/-- C1 counterexample: a success (2xx) status other than 200 — here 201 — with
a PDF content type is not Confirmed: the probe returns found = false with the
status diagnostic, because `check_pdf_exists` tests `status_code == 200`
rather than the whole 2xx class. -/
theorem spec_C1_counterexample :
    ((200 : Nat) ≤ 201 ∧ (201 : Nat) < 300) ∧
    pyStrContains "pdf" (py_lower ((some "application/pdf").getD "")) = true ∧
    (check_pdf_exists (fun _ => TransportEvent.response 201 (some "application/pdf"))
        "a@x.com" "ev" 5 5).found = false ∧
    (check_pdf_exists (fun _ => TransportEvent.response 201 (some "application/pdf"))
        "a@x.com" "ev" 5 5).message = "HTTP Status: 201" := by
  decide

/-- C1 (amended: success means status exactly 200, not any 2xx): if the
transport completes on the first attempt with status 200 and a content type
indicating PDF, the probe returns the Confirmed outcome — found flag true,
diagnostic `"PDF exists"` — having issued exactly one request, with no
retries and no sleeps. -/
theorem spec_C1_thm (net : Nat → TransportEvent) (email event_code : String)
    (mr rd : Nat) (hmr : 1 ≤ mr) (ct : Option String)
    (hnet : net 1 = TransportEvent.response 200 ct)
    (hpdf : pyStrContains "pdf" (py_lower (ct.getD "")) = true) :
    check_pdf_exists net email event_code mr rd =
      { found := true, url := pdf_url email event_code, message := "PDF exists",
        requests := 1, sleeps := [] } :=
  check_200_pdf net email event_code mr rd hmr ct hnet hpdf

/-- C1 witness: a concrete 200 + `application/pdf` probe is Confirmed. -/
theorem spec_C1_witness :
    check_pdf_exists (fun _ => TransportEvent.response 200 (some "application/pdf"))
        "a@x.com" "ev" 5 5 =
      { found := true, url := pdf_url "a@x.com" "ev", message := "PDF exists",
        requests := 1, sleeps := [] } :=
  spec_C1_thm (fun _ => TransportEvent.response 200 (some "application/pdf"))
    "a@x.com" "ev" 5 5 (by decide) (some "application/pdf") rfl (by decide)

/-- C2: when every attempt fails at the transport level (and at least one
attempt is allowed), the probe issues exactly `max_retries` requests, sleeps
exactly `max_retries - 1` times for `retry_delay` each, and returns the
TransportFailure diagnostic naming the class of the final attempt's exception
and the attempt count; both knobs are per-call parameters whose declared
defaults are 5 attempts and a 5-second delay. -/
theorem spec_C2_thm (net : Nat → TransportEvent) (email event_code : String)
    (max_retries retry_delay : Nat) (hmr : 1 ≤ max_retries)
    (hfail : ∀ a, 1 ≤ a → a ≤ max_retries → (net a).isException = true) :
    (check_pdf_exists net email event_code max_retries retry_delay).found = false ∧
    (check_pdf_exists net email event_code max_retries retry_delay).requests
      = max_retries ∧
    (check_pdf_exists net email event_code max_retries retry_delay).sleeps
      = List.replicate (max_retries - 1) retry_delay ∧
    (check_pdf_exists net email event_code max_retries retry_delay).message
      = exhaustedMessage (net max_retries) max_retries ∧
    default_max_retries = 5 ∧ default_retry_delay = 5 := by
  have h := check_loop_all_fail net (pdf_url email event_code) max_retries retry_delay
    max_retries 1 (by omega) hmr (fun a ha hb => hfail a ha hb)
  rw [check_pdf_exists, h]
  exact ⟨rfl, rfl, rfl, rfl, rfl, rfl⟩

/-- C2 witness: three attempts that all time out with a 2-second delay give
three requests, two sleeps of 2, and the timeout diagnostic naming 3
attempts. -/
theorem spec_C2_witness :
    (check_pdf_exists (fun _ => TransportEvent.timeout) "a@x.com" "ev" 3 2).requests
      = 3 ∧
    (check_pdf_exists (fun _ => TransportEvent.timeout) "a@x.com" "ev" 3 2).sleeps
      = [2, 2] ∧
    (check_pdf_exists (fun _ => TransportEvent.timeout) "a@x.com" "ev" 3 2).message
      = "Connection timeout (failed after 3 attempts)" := by
  have h := spec_C2_thm (fun _ => TransportEvent.timeout) "a@x.com" "ev" 3 2
    (by decide) (fun a _ _ => rfl)
  exact ⟨h.2.1, by rw [h.2.2.1]; rfl, by rw [h.2.2.2.1]; rfl⟩

/-- C3: for every transport behaviour — including one that raises a transport
exception on every attempt — every address and every configuration, the probe
terminates and returns exactly one result; every transport exception is
caught, surfacing at worst as the TransportFailure exhaustion diagnostic.
With at least one attempt allowed the result is classified by one of the four
outcome states; with an attempt bound of zero it is the loop's fallback
triple; in both cases the found flag is true exactly for Confirmed and the
record carries the probed URL. -/
theorem spec_C3_thm (net : Nat → TransportEvent) (email event_code : String)
    (mr rd : Nat) :
    (IsLoopOutcome mr (check_pdf_exists net email event_code mr rd).found
        (check_pdf_exists net email event_code mr rd).message ∨
      (mr = 0 ∧ check_pdf_exists net email event_code mr rd =
        { found := false, url := pdf_url email event_code,
          message := "Unknown error", requests := 0, sleeps := [] })) ∧
    ((check_pdf_exists net email event_code mr rd).found = true ↔
      (check_pdf_exists net email event_code mr rd).message = "PDF exists") ∧
    (check_pdf_exists net email event_code mr rd).url = pdf_url email event_code := by
  rcases Nat.eq_zero_or_pos mr with h0 | h1
  · subst h0
    exact ⟨Or.inr ⟨rfl, rfl⟩, check_found_iff net email event_code 0 rd, rfl⟩
  · obtain ⟨hcls, hurl, _⟩ := check_pdf_exists_spec net email event_code mr rd h1
    exact ⟨Or.inl hcls, check_found_iff net email event_code mr rd, hurl⟩

/-- C4: the derived address is exactly the fixed host-and-path prefix, `/`,
the group, `/`, the identity with every `@` mapped to `_` and every other
character unchanged, then `.pdf`; in particular the address derived for
`A@b.com` ends with `A_b.com.pdf`. -/
theorem spec_C4_thm (I G : String) :
    (pdf_url I G).data =
      base_url.data ++ ['/'] ++ G.data ++ ['/'] ++
        I.data.map (fun c => if c = '@' then '_' else c) ++ ".pdf".data ∧
    ∃ p : String, pdf_url "A@b.com" G = p ++ "A_b.com.pdf" := by
  constructor
  · have hs : ("/" : String).data = ['/'] := by decide
    simp [pdf_url, email_to_filename, String.data_append, hs]
  · refine ⟨base_url ++ "/" ++ G ++ "/", ?_⟩
    have hfile : email_to_filename "A@b.com" = "A_b.com" := by decide
    have h2 : ("A_b.com" : String) ++ ".pdf" = "A_b.com.pdf" := by decide
    simp only [pdf_url, hfile]
    rw [str_append_assoc, h2]

/-- C5: the record sequence is exactly the valid entries — non-empty and
containing `@` — in input order, each probed with the default policy; an entry
empty after trimming or lacking `@` fails the validity test (so it yields no
record and is never derived or probed), an entry non-empty after trimming that
contains `@` passes it; and the transport of invalid entries is never
consulted. -/
theorem spec_C5_thm (net : String → Nat → TransportEvent) (event_code : String)
    (emails : List String) :
    process_results net event_code emails =
      (emails.filter valid_email).map
        (fun e => (e, check_pdf_exists (net e) e event_code
            default_max_retries default_retry_delay)) ∧
    (∀ e : String, py_strip e = "" ∨ '@' ∉ e.data → valid_email e = false) ∧
    (∀ e : String, py_strip e ≠ "" ∧ '@' ∈ e.data → valid_email e = true) ∧
    (∀ net' : String → Nat → TransportEvent,
      (∀ e, valid_email e = true → net e = net' e) →
      process_results net event_code emails =
        process_results net' event_code emails) := by
  refine ⟨process_results_eq net event_code emails, ?_, ?_, ?_⟩
  · intro e h
    rcases h with h | h
    · have hno := py_strip_empty_no_at e h
      simp [valid_email, hno]
    · simp [valid_email, h]
  · rintro e ⟨h1, h2⟩
    have hne : e ≠ "" := by
      intro h0
      subst h0
      exact absurd h2 (by decide)
    simp [valid_email, hne, h2]
  · intro net' h
    exact process_results_net_congr net net' event_code emails h

/-- C5 witness: a whitespace-only entry is invalid, `a@x.com` is valid. -/
theorem spec_C5_witness :
    valid_email "   " = false ∧ valid_email "a@x.com" = true := by
  have h := spec_C5_thm (fun _ _ => TransportEvent.timeout) "ev" []
  exact ⟨h.2.1 "   " (Or.inl (by decide)), h.2.2.1 "a@x.com" ⟨by decide, by decide⟩⟩

/-- C6 counterexample: a success (2xx) status other than 200 — here 204 — with
a non-PDF content type is not classified WrongType: the probe reports the
status instead, because `check_pdf_exists` only treats status 200 as
success. -/
theorem spec_C6_counterexample :
    ((200 : Nat) ≤ 204 ∧ (204 : Nat) < 300) ∧
    pyStrContains "pdf" (py_lower "text/html") = false ∧
    (check_pdf_exists (fun _ => TransportEvent.response 204 (some "text/html"))
        "a@x.com" "ev" 5 5).message = "HTTP Status: 204" ∧
    (check_pdf_exists (fun _ => TransportEvent.response 204 (some "text/html"))
        "a@x.com" "ev" 5 5).message ≠ "URL exists but not a PDF" := by
  decide

/-- C6 (amended: success means status exactly 200, not any 2xx): if the
transport completes on the first attempt with status 200 and a content type
that does not indicate PDF, the probe returns the WrongType outcome — found
flag false, diagnostic `"URL exists but not a PDF"` distinguishing it from
absence — having issued exactly one request, with zero retries and no
sleeps. -/
theorem spec_C6_thm (net : Nat → TransportEvent) (email event_code : String)
    (mr rd : Nat) (hmr : 1 ≤ mr) (ct : Option String)
    (hnet : net 1 = TransportEvent.response 200 ct)
    (hpdf : pyStrContains "pdf" (py_lower (ct.getD "")) = false) :
    check_pdf_exists net email event_code mr rd =
      { found := false, url := pdf_url email event_code,
        message := "URL exists but not a PDF", requests := 1, sleeps := [] } :=
  check_200_nonpdf net email event_code mr rd hmr ct hnet hpdf

/-- C6 witness: a concrete 200 + `text/html` probe is WrongType with one
request and no sleeps. -/
theorem spec_C6_witness :
    check_pdf_exists (fun _ => TransportEvent.response 200 (some "text/html"))
        "a@x.com" "ev" 5 5 =
      { found := false, url := pdf_url "a@x.com" "ev",
        message := "URL exists but not a PDF", requests := 1, sleeps := [] } :=
  spec_C6_thm (fun _ => TransportEvent.response 200 (some "text/html"))
    "a@x.com" "ev" 5 5 (by decide) (some "text/html") rfl (by decide)

/-- C7: if the transport completes on the first attempt with a non-success
(non-2xx) status, the probe returns the NotFound outcome — found flag false,
diagnostic reporting the status — having issued exactly one request, with
zero retries and no sleeps. -/
theorem spec_C7_thm (net : Nat → TransportEvent) (email event_code : String)
    (mr rd : Nat) (hmr : 1 ≤ mr) (status : Nat) (ct : Option String)
    (hnet : net 1 = TransportEvent.response status ct)
    (hst : status < 200 ∨ 300 ≤ status) :
    check_pdf_exists net email event_code mr rd =
      { found := false, url := pdf_url email event_code,
        message := "HTTP Status: " ++ toString status,
        requests := 1, sleeps := [] } :=
  check_non200 net email event_code mr rd hmr status ct hnet (by omega)

/-- C7 witness: a concrete 404 probe is NotFound with one request and no
sleeps. -/
theorem spec_C7_witness :
    check_pdf_exists (fun _ => TransportEvent.response 404 none) "a@x.com" "ev" 5 5 =
      { found := false, url := pdf_url "a@x.com" "ev",
        message := "HTTP Status: " ++ toString 404, requests := 1, sleeps := [] } :=
  spec_C7_thm (fun _ => TransportEvent.response 404 none) "a@x.com" "ev" 5 5
    (by decide) 404 none rfl (by decide)

/-- C8: the summary is a pure fold over the record sequence — total is the
record count, found counts the records whose outcome is Confirmed (diagnostic
`"PDF exists"`), missing is total minus found; and on
`["a@x.com", "bad", "b@x.com"]` exactly two records are produced, for
`a@x.com` then `b@x.com` in that order, with total 2. -/
theorem spec_C8_thm (net : String → Nat → TransportEvent) (event_code : String)
    (emails : List String) :
    summarize (process_results net event_code emails) =
      ((process_results net event_code emails).length,
       (process_results net event_code emails).countP
         (fun r => r.2.message == "PDF exists"),
       (process_results net event_code emails).length -
         (process_results net event_code emails).countP
           (fun r => r.2.message == "PDF exists")) ∧
    (process_results net event_code ["a@x.com", "bad", "b@x.com"]).map Prod.fst
      = ["a@x.com", "b@x.com"] ∧
    (summarize (process_results net event_code ["a@x.com", "bad", "b@x.com"])).1
      = 2 := by
  have hfilter : (["a@x.com", "bad", "b@x.com"].filter valid_email)
      = ["a@x.com", "b@x.com"] := by decide
  have hcount : ∀ l : List String,
      (process_results net event_code l).countP (fun r => r.2.found) =
      (process_results net event_code l).countP
        (fun r => r.2.message == "PDF exists") := by
    intro l
    apply List.countP_congr
    intro r hr
    rw [process_results_eq net event_code l] at hr
    obtain ⟨e, he, rfl⟩ := List.mem_map.mp hr
    constructor
    · intro hf
      have hm := (check_found_iff (net e) e event_code
        default_max_retries default_retry_delay).mp hf
      simp [hm]
    · intro hm
      apply (check_found_iff (net e) e event_code
        default_max_retries default_retry_delay).mpr
      simpa using hm
  refine ⟨?_, ?_, ?_⟩
  · simp only [summarize, hcount emails]
  · rw [process_results_eq net event_code ["a@x.com", "bad", "b@x.com"], hfilter]
    simp
  · simp [summarize, process_results_eq net event_code ["a@x.com", "bad", "b@x.com"],
      hfilter]

/-- C9: the trailing `"Unknown error"` fallback of the loop is returned
exactly when the attempt bound is zero; in that case no transport request is
issued at all, and whenever at least one attempt is allowed the probe returns
from within an iteration, having issued at least one request. -/
theorem spec_C9_thm (net : Nat → TransportEvent) (email event_code : String)
    (mr rd : Nat) :
    ((check_pdf_exists net email event_code mr rd).message = "Unknown error"
      ↔ mr = 0) ∧
    (mr = 0 → check_pdf_exists net email event_code mr rd =
      { found := false, url := pdf_url email event_code,
        message := "Unknown error", requests := 0, sleeps := [] }) ∧
    (1 ≤ mr → 1 ≤ (check_pdf_exists net email event_code mr rd).requests) := by
  rcases Nat.eq_zero_or_pos mr with h0 | h1
  · subst h0
    exact ⟨⟨fun _ => rfl, fun _ => rfl⟩, fun _ => rfl,
      fun h => absurd h (by decide)⟩
  · obtain ⟨hcls, _, hreq⟩ := check_pdf_exists_spec net email event_code mr rd h1
    exact ⟨⟨fun hmsg => absurd hmsg (loopOutcome_ne_unknown hcls),
        fun h0 => absurd h0 (by omega)⟩,
      fun h0 => absurd h0 (by omega), fun _ => hreq⟩

/-- C9 witness: with an attempt bound of zero the fallback diagnostic is
returned. -/
theorem spec_C9_witness :
    (check_pdf_exists (fun _ => TransportEvent.timeout) "a@x.com" "ev" 0 5).message
      = "Unknown error" :=
  (spec_C9_thm (fun _ => TransportEvent.timeout) "a@x.com" "ev" 0 5).1.mpr rfl

/-- C10: on a success (status-200) first-attempt response, the probe is
Confirmed exactly when the three characters `pdf` occur as a contiguous
substring of the lowercased content-type value; a response with no
content-type header is read as the empty value and classified WrongType. -/
theorem spec_C10_thm (net : Nat → TransportEvent) (email event_code : String)
    (mr rd : Nat) (hmr : 1 ≤ mr) (ct : Option String)
    (hnet : net 1 = TransportEvent.response 200 ct) :
    ((check_pdf_exists net email event_code mr rd).found = true ↔
      "pdf".data <:+: (py_lower (ct.getD "")).data) ∧
    (ct = none →
      check_pdf_exists net email event_code mr rd =
        { found := false, url := pdf_url email event_code,
          message := "URL exists but not a PDF", requests := 1, sleeps := [] }) := by
  by_cases hpdf : pyStrContains "pdf" (py_lower (ct.getD "")) = true
  · rw [check_200_pdf net email event_code mr rd hmr ct hnet hpdf]
    refine ⟨iff_of_true rfl ((substrOf_iff _ _).mp hpdf), ?_⟩
    intro hnone
    subst hnone
    exact absurd hpdf (by decide)
  · rw [Bool.not_eq_true] at hpdf
    rw [check_200_nonpdf net email event_code mr rd hmr ct hnet hpdf]
    refine ⟨iff_of_false (fun h => Bool.noConfusion h) ?_, fun _ => rfl⟩
    intro hinf
    have h2 := (substrOf_iff "pdf".data (py_lower (ct.getD "")).data).mpr hinf
    simp only [pyStrContains] at hpdf
    rw [h2] at hpdf
    exact Bool.noConfusion hpdf

/-- C10 witness: a 200 response with no content-type header is WrongType. -/
theorem spec_C10_witness :
    check_pdf_exists (fun _ => TransportEvent.response 200 none) "a@x.com" "ev" 5 5 =
      { found := false, url := pdf_url "a@x.com" "ev",
        message := "URL exists but not a PDF", requests := 1, sleeps := [] } :=
  (spec_C10_thm (fun _ => TransportEvent.response 200 none) "a@x.com" "ev" 5 5
    (by decide) none rfl).2 rfl
